import Mathlib

/-!
Shallow embedding of `i2rtd.py`, a register-level protocol driver for Realtek
display scalers (class `I2RTD`).  Every method of the class is translated into
a pure Lean function over an explicit driver state (`Driver`, holding the
cached `_halted` flag), an explicit bus-device model (`BusState`), and an
explicit trace of bus transactions (`List BusOp`).  Python exceptions are
modelled by the `Err` type, one constructor per raise site; fallible methods
return `Except Err`.

Bus transport primitives (smbus2): `bus.transfer(W(dev, bytes))` is a pure
write transaction, `bus.transfer(W(dev, bytes), R(dev, n))` is a combined
write-then-read transaction, `bus.transfer(R(dev, n))` is a pure read
transaction, and `bus.read_byte(dev)` is a probe read.  `time.sleep(s)` is
recorded in the trace as `BusOp.sleep` (milliseconds).
-/

namespace I2rtd

/-- `ADDR.DBG = 0x6a >> 1` from the `ADDR` IntEnum. -/
def ADDR.DBG : Nat := 0x6a / 2

/-- `ADDR.DDC = 0x6e >> 1` from the `ADDR` IntEnum. -/
def ADDR.DDC : Nat := 0x6e / 2

/-- `ADDR.ISP = 0x94 >> 1` from the `ADDR` IntEnum. -/
def ADDR.ISP : Nat := 0x94 / 2

/-- Python exceptions raised by the driver or the transport, one constructor
per raise site / error class:
* `osError e`: transport-level `OSError` with errno `e` (raised by smbus2);
* `exc m`: any other Python exception with message `m`;
* `attributeError n`: failed attribute lookup `self.<n>`;
* `requiresDebug`: `Exception("Error: method requires debug mode")` from the
  `debug` decorator;
* `requiresIsp`: `Exception("Error: method requires isp mode")` from the
  `isp` decorator;
* `rangeError name atEnd`: the two raises in `limit_addr` (`atEnd = false`
  for the start-address check, `true` for the end-address check);
* `invalidState`: `Exception("Debug must not be disabled when MCU is halted!")`;
* `deviceUnreachable`: `Exception("device not reachable")` from `__init__`. -/
inductive Err where
  | osError (errno : Nat)
  | exc (msg : String)
  | attributeError (name : String)
  | requiresDebug
  | requiresIsp
  | rangeError (name : String) (atEnd : Bool)
  | invalidState
  | deviceUnreachable
  deriving Repr, DecidableEq

/-- errno 6, ENXIO "No such device or address": the transport error raised
when the probed device address does not answer (device not present). -/
def ENXIO : Nat := 6

/-- A bus transaction (or sleep) as it appears on the wire, mirroring the
transport primitives: `write` = `transfer(W(dev, data))`, `writeRead` =
`transfer(W(dev, data), R(dev, rlen))`, `read` = `transfer(R(dev, rlen))`,
`readByte` = `bus.read_byte(dev)`, `sleep ms` = `time.sleep(ms / 1000)`. -/
inductive BusOp where
  | write (dev : Nat) (data : List Nat)
  | writeRead (dev : Nat) (data : List Nat) (rlen : Nat)
  | read (dev : Nat) (rlen : Nat)
  | readByte (dev : Nat)
  | sleep (ms : Nat)
  deriving Repr, DecidableEq

/-- The hardware visible behind the bus, modelled as state:
* `ispProbe` / `dbgProbe`: outcome of `read_byte` on the ISP / DBG address
  (the DBG address only answers while debug mode is active — an error here
  models the no-acknowledge);
* `ispPtr`, `ispMem`: the ISP register file with its read pointer (a 1-byte
  address write sets the pointer, a 2-byte write stores a value);
* `dbgOut`: the byte the DBG device will answer on the next read, set by the
  `0x3a` (XDATA) and `0x44` (EEPROM) read commands;
* `xdata`: the MCU XDATA memory, written by the `0x3b` command;
* `eeprom`: the indirect EEPROM contents, indexed by target i2c address and
  cell address, written by the `0x04` command. -/
structure BusState where
  ispProbe : Except Err Nat
  dbgProbe : Except Err Nat
  ispPtr : Nat
  ispMem : Nat → Nat
  dbgOut : Nat
  xdata : Nat → Nat
  eeprom : Nat → Nat → Nat

/-- The driver instance state: `self._halted` (the only cached flag; the
class body defines no other instance state besides the bus handle). -/
structure Driver where
  halted : Bool
  deriving Repr, DecidableEq

/-- Outcome of invoking a driver method: Python result or exception, the
trace of bus transactions issued, and the driver / bus state afterwards. -/
structure Eff (α : Type) where
  res : Except Err α
  trace : List BusOp
  drv : Driver
  bus : BusState

/-- Effect of one pure write transaction on the modelled hardware.  DBG
commands: `0x3a addrL addrH` latches an XDATA byte for the next read,
`0x3b addrL addrH val` stores an XDATA byte, `0x44 addrL i2c 0x00 addrH`
latches an EEPROM byte, `0x04 addrL i2c val addrH` stores an EEPROM byte,
`0x71 0x00` disables debug mode (DBG stops answering), `0x80 x` is the
halt/run command (no memory effect).  The DDC unlock sequence enables debug
mode.  ISP: `[a]` sets the read pointer, `[a, v]` stores a register. -/
def busWrite (b : BusState) (dev : Nat) (data : List Nat) : BusState :=
  if dev = ADDR.ISP then
    match data with
    | [a] => { b with ispPtr := a }
    | [a, v] => { b with ispMem := fun x => if x = a then v else b.ispMem x }
    | _ => b
  else if dev = ADDR.DBG then
    match data with
    | [0x3a, l, h] => { b with dbgOut := b.xdata (h * 256 + l) }
    | [0x3b, l, h, v] =>
        { b with xdata := fun a => if a = h * 256 + l then v else b.xdata a }
    | [0x44, l, i2c, _, h] => { b with dbgOut := b.eeprom i2c (h * 256 + l) }
    | [0x04, l, i2c, v, h] =>
        { b with eeprom := fun ia a =>
            if ia = i2c ∧ a = h * 256 + l then v else b.eeprom ia a }
    | [0x71, _] => { b with dbgProbe := Except.error (Err.osError ENXIO) }
    | _ => b
  else if dev = ADDR.DDC then
    match data with
    | [0x71, 0x81, 0xaa, 0xff] => { b with dbgProbe := Except.ok 0 }
    | _ => b
  else b

/-- The byte answered by a 1-byte read transaction on device `dev`. -/
def busReadVal (b : BusState) (dev : Nat) : Nat :=
  if dev = ADDR.ISP then b.ispMem b.ispPtr
  else if dev = ADDR.DBG then b.dbgOut
  else 0

/-- `memSlice f addr len = [f addr, f (addr+1), ..., f (addr+len-1)]`. -/
def memSlice (f : Nat → Nat) (addr len : Nat) : List Nat :=
  match len with
  | 0 => []
  | n + 1 => f addr :: memSlice f (addr + 1) n

/-- Names of the methods defined in the body of class `I2RTD` (transcribed
from the class); Python attribute lookup on `self` succeeds exactly for
these names. -/
def i2rtdMethods : List String :=
  ["__init__", "isp_enable", "isp_enabled", "isp_iter_read_xfr",
   "isp_read_xfr", "isp_dump_xfr", "isp_write_xfr", "isp_reset",
   "debug_enabled", "debug_enable", "debug_halt_mcu",
   "debug_iter_read_xdata", "debug_read_xdata", "debug_dump_xdata",
   "debug_write_xdata", "debug_iter_read_eeprom", "debug_read_eeprom",
   "debug_dump_eeprom", "debug_write_eeprom"]

/-- Python attribute lookup `self.<name>`: `AttributeError` unless the class
defines the method. -/
def attrLookup (name : String) : Except Err Unit :=
  if i2rtdMethods.contains name then Except.ok () else
    Except.error (Err.attributeError name)

/-- `I2RTD.__init__`: open the bus, set `self._halted = False`, then probe
the ISP address with `read_byte`; an `OSError` there is turned into
`Exception("device not reachable")` (any other exception propagates), and
nothing further touches the bus. -/
def init (b : BusState) : Except Err Driver × List BusOp :=
  match b.ispProbe with
  | Except.ok _ => (Except.ok { halted := false }, [BusOp.readByte ADDR.ISP])
  | Except.error (Err.osError _) =>
      (Except.error Err.deviceUnreachable, [BusOp.readByte ADDR.ISP])
  | Except.error e => (Except.error e, [BusOp.readByte ADDR.ISP])

/-- The `isp_enabled` property: one write-then-read transfer of register
`0x6f` on the ISP address, returning whether bit 7 is set.  The transfer
leaves the ISP read pointer at `0x6f`. -/
def isp_enabled (b : BusState) : Bool × List BusOp × BusState :=
  let b1 := busWrite b ADDR.ISP [0x6f]
  ((busReadVal b1 ADDR.ISP &&& 0x80) != 0,
   [BusOp.writeRead ADDR.ISP [0x6f] 1], b1)

/-- `isp_enable(onoff, force)`: no-op (after the `isp_enabled` query
transfer) when the current state already matches and `force` is false;
otherwise one pure write of `[0x6f, 0x80]` or `[0x6f, 0x00]`. -/
def isp_enable (b : BusState) (onoff force : Bool) : List BusOp × BusState :=
  let q := isp_enabled b
  if q.1 == onoff && !force then (q.2.1, q.2.2)
  else if onoff then
    (q.2.1 ++ [BusOp.write ADDR.ISP [0x6f, 0x80]],
     busWrite q.2.2 ADDR.ISP [0x6f, 0x80])
  else
    (q.2.1 ++ [BusOp.write ADDR.ISP [0x6f, 0x00]],
     busWrite q.2.2 ADDR.ISP [0x6f, 0x00])

/-- The `debug_enabled` property: probe `read_byte` on the DBG address;
`True` on success, `False` on (any) `OSError`; any non-`OSError` exception
propagates.  The probe always appears in the trace as
`BusOp.readByte ADDR.DBG` at the call sites. -/
def debug_enabled (b : BusState) : Except Err Bool :=
  match b.dbgProbe with
  | Except.ok _ => Except.ok true
  | Except.error (Err.osError _) => Except.ok false
  | Except.error e => Except.error e

/-- The `debug` decorator: raise `requiresDebug` unless `debug_enabled` is
true (a probe error other than `OSError` propagates). -/
def debugGate (b : BusState) : Except Err Unit :=
  match debug_enabled b with
  | Except.ok true => Except.ok ()
  | Except.ok false => Except.error Err.requiresDebug
  | Except.error e => Except.error e

/-- The `limit_addr(_min, _max)` decorator body: reject unless
`_min <= addr <= _max`, then reject unless `_min <= addr + effLen - 1 <= _max`
(computed in Python integers, hence over `Int`: with `effLen = 0` the end
address is `addr - 1`).  `effLen` is the requested count for reads and the
payload length for writes; `name` is the decorated function's name prefix
(`"ISP"` or `"DEBUG"`). -/
def limit_addr_check (mn mx addr effLen : Nat) (name : String) :
    Except Err Unit :=
  if ¬ (mn ≤ addr ∧ addr ≤ mx) then Except.error (Err.rangeError name false)
  else if ¬ ((mn : Int) ≤ (addr : Int) + (effLen : Int) - 1 ∧
             (addr : Int) + (effLen : Int) - 1 ≤ (mx : Int)) then
    Except.error (Err.rangeError name true)
  else Except.ok ()

/-- Loop body of `isp_iter_read_xfr`: per address, one pure write of the
address byte, then one pure 1-byte read. -/
def ispReadLoop (b : BusState) (addr len : Nat) :
    List Nat × List BusOp × BusState :=
  match len with
  | 0 => ([], [], b)
  | n + 1 =>
    let b1 := busWrite b ADDR.ISP [addr]
    let v := busReadVal b1 ADDR.ISP
    let r := ispReadLoop b1 (addr + 1) n
    (v :: r.1,
     [BusOp.write ADDR.ISP [addr], BusOp.read ADDR.ISP 1] ++ r.2.1, r.2.2)

/-- `isp_iter_read_xfr(addr, _len)` fully consumed: `@isp` gate (one
`isp_enabled` query transfer), then `@limit_addr(0x00, 0xff)`, then the
per-address read loop. -/
def isp_iter_read_xfr (d : Driver) (b : BusState) (addr len : Nat) :
    Eff (List Nat) :=
  let q := isp_enabled b
  if !q.1 then ⟨Except.error Err.requiresIsp, q.2.1, d, q.2.2⟩
  else
    match limit_addr_check 0x00 0xff addr len "ISP" with
    | Except.error e => ⟨Except.error e, q.2.1, d, q.2.2⟩
    | Except.ok _ =>
      let r := ispReadLoop q.2.2 addr len
      ⟨Except.ok r.1, q.2.1 ++ r.2.1, d, r.2.2⟩

/-- `isp_read_xfr(addr, _len)` is `return list(self.debug_iter_read_xfr(addr,
_len))`.  The class defines no method named `debug_iter_read_xfr` (see
`i2rtdMethods`), so the attribute lookup raises `AttributeError` before any
bus access.  The `ok` branch of the lookup is unreachable; it is kept total
with the like-named method the call was evidently meant to reach. -/
def isp_read_xfr (d : Driver) (b : BusState) (addr len : Nat) :
    Eff (List Nat) :=
  match attrLookup "debug_iter_read_xfr" with
  | Except.error e => ⟨Except.error e, [], d, b⟩
  | Except.ok _ => isp_iter_read_xfr d b addr len

/-- Loop body of `isp_write_xfr`: per (address, value), one pure 2-byte
write. -/
def ispWriteLoop (b : BusState) (addr : Nat) (data : List Nat) :
    List BusOp × BusState :=
  match data with
  | [] => ([], b)
  | v :: rest =>
    let b1 := busWrite b ADDR.ISP [addr, v]
    let r := ispWriteLoop b1 (addr + 1) rest
    (BusOp.write ADDR.ISP [addr, v] :: r.1, r.2)

/-- `isp_write_xfr(addr, data)`: `@isp` gate, `@limit_addr(0x00, 0xff)` with
the payload length, then the write loop (a Lean list is always iterable, so
the `isinstance` check passes). -/
def isp_write_xfr (d : Driver) (b : BusState) (addr : Nat)
    (data : List Nat) : Eff Unit :=
  let q := isp_enabled b
  if !q.1 then ⟨Except.error Err.requiresIsp, q.2.1, d, q.2.2⟩
  else
    match limit_addr_check 0x00 0xff addr data.length "ISP" with
    | Except.error e => ⟨Except.error e, q.2.1, d, q.2.2⟩
    | Except.ok _ =>
      let r := ispWriteLoop q.2.2 addr data
      ⟨Except.ok (), q.2.1 ++ r.1, d, r.2⟩

/-- `debug_enable(onoff, force)`: query `debug_enabled` (probe read; a
non-`OSError` probe failure propagates), no-op when the state matches and
not forced, raise `invalidState` when disabling while `self._halted`,
otherwise 50 ms settle, the enable (DDC unlock) or disable (DBG) write,
50 ms settle. -/
def debug_enable (d : Driver) (b : BusState) (onoff force : Bool) :
    Eff Unit :=
  match debug_enabled b with
  | Except.error e => ⟨Except.error e, [BusOp.readByte ADDR.DBG], d, b⟩
  | Except.ok cur =>
    if cur == onoff && !force then
      ⟨Except.ok (), [BusOp.readByte ADDR.DBG], d, b⟩
    else if !onoff && d.halted then
      ⟨Except.error Err.invalidState, [BusOp.readByte ADDR.DBG], d, b⟩
    else if onoff then
      ⟨Except.ok (),
       [BusOp.readByte ADDR.DBG, BusOp.sleep 50,
        BusOp.write ADDR.DDC [0x71, 0x81, 0xaa, 0xff], BusOp.sleep 50],
       d, busWrite b ADDR.DDC [0x71, 0x81, 0xaa, 0xff]⟩
    else
      ⟨Except.ok (),
       [BusOp.readByte ADDR.DBG, BusOp.sleep 50,
        BusOp.write ADDR.DBG [0x71, 0x00], BusOp.sleep 50],
       d, busWrite b ADDR.DBG [0x71, 0x00]⟩

/-- `debug_halt_mcu(halt)`: `@debug` gate (probe read), 100 ms sleep, the
2-byte halt/run command, update of the cached `_halted` flag, 100 ms
sleep. -/
def debug_halt_mcu (d : Driver) (b : BusState) (halt : Bool) : Eff Unit :=
  match debugGate b with
  | Except.error e => ⟨Except.error e, [BusOp.readByte ADDR.DBG], d, b⟩
  | Except.ok _ =>
    let cmd := [0x80, if halt then 1 else 0]
    ⟨Except.ok (),
     [BusOp.readByte ADDR.DBG, BusOp.sleep 100, BusOp.write ADDR.DBG cmd,
      BusOp.sleep 100],
     { d with halted := halt }, busWrite b ADDR.DBG cmd⟩

/-- Loop body of `debug_iter_read_xdata`: per address, the 3-byte `0x3a`
command with `addrL = addr & 0xff`, `addrH = addr >> 8 & 0xff`, a 10 ms
settle sleep when not halted, then one 1-byte read. -/
def xdataReadLoop (b : BusState) (addr len : Nat) (halt : Bool) :
    List Nat × List BusOp × BusState :=
  match len with
  | 0 => ([], [], b)
  | n + 1 =>
    let l := addr % 256
    let h := addr / 256 % 256
    let b1 := busWrite b ADDR.DBG [0x3a, l, h]
    let v := busReadVal b1 ADDR.DBG
    let r := xdataReadLoop b1 (addr + 1) n halt
    (v :: r.1,
     [BusOp.write ADDR.DBG [0x3a, l, h]] ++
       (if halt then [] else [BusOp.sleep 10]) ++
       [BusOp.read ADDR.DBG 1] ++ r.2.1,
     r.2.2)

/-- `debug_iter_read_xdata(addr, _len, end=0, halt=True)` fully consumed:
`@debug` gate (probe read), `@limit_addr(0x0000, 0xffff)`, then — inside the
generator — the halt bracket (when `halt`) around the per-address read loop.
The `end` parameter is accepted and never used, exactly as in the source. -/
def debug_iter_read_xdata (d : Driver) (b : BusState)
    (addr len endArg : Nat) (halt : Bool) : Eff (List Nat) :=
  match debugGate b with
  | Except.error e => ⟨Except.error e, [BusOp.readByte ADDR.DBG], d, b⟩
  | Except.ok _ =>
    match limit_addr_check 0x0000 0xffff addr len "DEBUG" with
    | Except.error e => ⟨Except.error e, [BusOp.readByte ADDR.DBG], d, b⟩
    | Except.ok _ =>
      let _ := endArg
      if halt then
        let o := debug_halt_mcu d b true
        match o.res with
        | Except.error e =>
            ⟨Except.error e, BusOp.readByte ADDR.DBG :: o.trace, o.drv, o.bus⟩
        | Except.ok _ =>
          let r := xdataReadLoop o.bus addr len true
          let c := debug_halt_mcu o.drv r.2.2 false
          match c.res with
          | Except.error e =>
              ⟨Except.error e,
               BusOp.readByte ADDR.DBG :: (o.trace ++ r.2.1 ++ c.trace),
               c.drv, c.bus⟩
          | Except.ok _ =>
              ⟨Except.ok r.1,
               BusOp.readByte ADDR.DBG :: (o.trace ++ r.2.1 ++ c.trace),
               c.drv, c.bus⟩
      else
        let r := xdataReadLoop b addr len false
        ⟨Except.ok r.1, BusOp.readByte ADDR.DBG :: r.2.1, d, r.2.2⟩

/-- `debug_read_xdata(addr, _len, halt=True)` is
`list(self.debug_iter_read_xdata(addr, _len, halt))`: the third positional
argument lands in the iterator's unused `end` parameter (a Python bool is
the int 0 or 1 there), so the iterator always runs with its default
`halt=True`, faithfully reproducing the source. -/
def debug_read_xdata (d : Driver) (b : BusState) (addr len : Nat)
    (halt : Bool) : Eff (List Nat) :=
  debug_iter_read_xdata d b addr len (if halt then 1 else 0) true

/-- Loop body of `debug_write_xdata`: per (address, value), the 4-byte
`0x3b` command, then a 10 ms settle sleep when not halted. -/
def xdataWriteLoop (b : BusState) (addr : Nat) (data : List Nat)
    (halt : Bool) : List BusOp × BusState :=
  match data with
  | [] => ([], b)
  | v :: rest =>
    let l := addr % 256
    let h := addr / 256 % 256
    let b1 := busWrite b ADDR.DBG [0x3b, l, h, v]
    let r := xdataWriteLoop b1 (addr + 1) rest halt
    ([BusOp.write ADDR.DBG [0x3b, l, h, v]] ++
       (if halt then [] else [BusOp.sleep 10]) ++ r.1,
     r.2)

/-- `debug_write_xdata(addr, data, halt=True)`: `@debug` gate,
`@limit_addr(0x0000, 0xffff)` with the payload length, halt bracket (when
`halt`) around the per-address write loop. -/
def debug_write_xdata (d : Driver) (b : BusState) (addr : Nat)
    (data : List Nat) (halt : Bool) : Eff Unit :=
  match debugGate b with
  | Except.error e => ⟨Except.error e, [BusOp.readByte ADDR.DBG], d, b⟩
  | Except.ok _ =>
    match limit_addr_check 0x0000 0xffff addr data.length "DEBUG" with
    | Except.error e => ⟨Except.error e, [BusOp.readByte ADDR.DBG], d, b⟩
    | Except.ok _ =>
      if halt then
        let o := debug_halt_mcu d b true
        match o.res with
        | Except.error e =>
            ⟨Except.error e, BusOp.readByte ADDR.DBG :: o.trace, o.drv, o.bus⟩
        | Except.ok _ =>
          let r := xdataWriteLoop o.bus addr data true
          let c := debug_halt_mcu o.drv r.2 false
          match c.res with
          | Except.error e =>
              ⟨Except.error e,
               BusOp.readByte ADDR.DBG :: (o.trace ++ r.1 ++ c.trace),
               c.drv, c.bus⟩
          | Except.ok _ =>
              ⟨Except.ok (),
               BusOp.readByte ADDR.DBG :: (o.trace ++ r.1 ++ c.trace),
               c.drv, c.bus⟩
      else
        let r := xdataWriteLoop b addr data false
        ⟨Except.ok (), BusOp.readByte ADDR.DBG :: r.1, d, r.2⟩

/-- Loop body of `debug_iter_read_eeprom`: per address, the 5-byte `0x44`
command `[0x44, addrL, i2caddr, 0x00, addrH]`, an unconditional 10 ms
sleep, another 10 ms sleep when not halted, then one 1-byte read. -/
def eepromReadLoop (b : BusState) (addr len i2c : Nat) (halt : Bool) :
    List Nat × List BusOp × BusState :=
  match len with
  | 0 => ([], [], b)
  | n + 1 =>
    let l := addr % 256
    let h := addr / 256 % 256
    let b1 := busWrite b ADDR.DBG [0x44, l, i2c, 0x00, h]
    let v := busReadVal b1 ADDR.DBG
    let r := eepromReadLoop b1 (addr + 1) n i2c halt
    (v :: r.1,
     [BusOp.write ADDR.DBG [0x44, l, i2c, 0x00, h], BusOp.sleep 10] ++
       (if halt then [] else [BusOp.sleep 10]) ++
       [BusOp.read ADDR.DBG 1] ++ r.2.1,
     r.2.2)

/-- `debug_iter_read_eeprom(addr, _len, i2caddr=0xa0, halt=True)` fully
consumed: `@debug` gate only — the method has no `limit_addr` decorator, so
no address-range validation happens — then the halt bracket (when `halt`)
around the per-address read loop. -/
def debug_iter_read_eeprom (d : Driver) (b : BusState)
    (addr len i2c : Nat) (halt : Bool) : Eff (List Nat) :=
  match debugGate b with
  | Except.error e => ⟨Except.error e, [BusOp.readByte ADDR.DBG], d, b⟩
  | Except.ok _ =>
    if halt then
      let o := debug_halt_mcu d b true
      match o.res with
      | Except.error e =>
          ⟨Except.error e, BusOp.readByte ADDR.DBG :: o.trace, o.drv, o.bus⟩
      | Except.ok _ =>
        let r := eepromReadLoop o.bus addr len i2c true
        let c := debug_halt_mcu o.drv r.2.2 false
        match c.res with
        | Except.error e =>
            ⟨Except.error e,
             BusOp.readByte ADDR.DBG :: (o.trace ++ r.2.1 ++ c.trace),
             c.drv, c.bus⟩
        | Except.ok _ =>
            ⟨Except.ok r.1,
             BusOp.readByte ADDR.DBG :: (o.trace ++ r.2.1 ++ c.trace),
             c.drv, c.bus⟩
    else
      let r := eepromReadLoop b addr len i2c false
      ⟨Except.ok r.1, BusOp.readByte ADDR.DBG :: r.2.1, d, r.2.2⟩

/-- `debug_read_eeprom(addr, _len, halt=True)` is
`list(self.debug_iter_read_eeprom(addr, _len, halt=halt))` with the default
`i2caddr=0xa0` (here the keyword is passed correctly). -/
def debug_read_eeprom (d : Driver) (b : BusState) (addr len : Nat)
    (halt : Bool) : Eff (List Nat) :=
  debug_iter_read_eeprom d b addr len 0xa0 halt

/-- Loop body of `debug_write_eeprom`: per (address, value), the 5-byte
`0x04` command `[0x04, addrL, i2caddr, val, addrH]`, an unconditional 10 ms
sleep, another 10 ms sleep when not halted. -/
def eepromWriteLoop (b : BusState) (addr : Nat) (data : List Nat)
    (i2c : Nat) (halt : Bool) : List BusOp × BusState :=
  match data with
  | [] => ([], b)
  | v :: rest =>
    let l := addr % 256
    let h := addr / 256 % 256
    let b1 := busWrite b ADDR.DBG [0x04, l, i2c, v, h]
    let r := eepromWriteLoop b1 (addr + 1) rest i2c halt
    ([BusOp.write ADDR.DBG [0x04, l, i2c, v, h], BusOp.sleep 10] ++
       (if halt then [] else [BusOp.sleep 10]) ++ r.1,
     r.2)

/-- `debug_write_eeprom(addr, data, i2caddr=0xa0, halt=True)`: `@debug`
gate only (no `limit_addr` decorator, hence no range validation), halt
bracket (when `halt`) around the per-address write loop. -/
def debug_write_eeprom (d : Driver) (b : BusState) (addr : Nat)
    (data : List Nat) (i2c : Nat) (halt : Bool) : Eff Unit :=
  match debugGate b with
  | Except.error e => ⟨Except.error e, [BusOp.readByte ADDR.DBG], d, b⟩
  | Except.ok _ =>
    if halt then
      let o := debug_halt_mcu d b true
      match o.res with
      | Except.error e =>
          ⟨Except.error e, BusOp.readByte ADDR.DBG :: o.trace, o.drv, o.bus⟩
      | Except.ok _ =>
        let r := eepromWriteLoop o.bus addr data i2c true
        let c := debug_halt_mcu o.drv r.2 false
        match c.res with
        | Except.error e =>
            ⟨Except.error e,
             BusOp.readByte ADDR.DBG :: (o.trace ++ r.1 ++ c.trace),
             c.drv, c.bus⟩
        | Except.ok _ =>
            ⟨Except.ok (),
             BusOp.readByte ADDR.DBG :: (o.trace ++ r.1 ++ c.trace),
             c.drv, c.bus⟩
    else
      let r := eepromWriteLoop b addr data i2c false
      ⟨Except.ok (), BusOp.readByte ADDR.DBG :: r.1, d, r.2⟩

/-- `BusOp.write` transactions are the transport's pure-write primitive;
`writeRead`, `read` and `readByte` are not writes. -/
def isBusWrite : BusOp → Bool
  | BusOp.write _ _ => true
  | _ => false

/-- Number of pure-write transactions in a trace. -/
def writeCount (t : List BusOp) : Nat := (t.filter isBusWrite).length

/-- A fresh driver instance (`_halted = False`). -/
def drv0 : Driver := { halted := false }

/-- A bus whose ISP and DBG addresses both answer, with all memories zero:
debug mode active. -/
def busEn : BusState :=
  { ispProbe := Except.ok 0, dbgProbe := Except.ok 0, ispPtr := 0,
    ispMem := fun _ => 0, dbgOut := 0, xdata := fun _ => 0,
    eeprom := fun _ _ => 0 }

/-- A bus whose DBG address does not answer (debug mode disabled): the probe
raises the device-not-present `OSError`. -/
def busDis : BusState := { busEn with dbgProbe := Except.error (Err.osError ENXIO) }

/-- A bus whose DBG probe fails with `OSError` errno 110 (`ETIMEDOUT`) — a
transport error that is not the device-not-present class. -/
def busTimeout : BusState :=
  { busEn with dbgProbe := Except.error (Err.osError 110) }

/-- A bus with a distinctive ISP register file (`reg a = 255 - a`; bit 7 of
register `0x6f` is set, so ISP mode reads as enabled). -/
def busC1 : BusState := { busEn with ispMem := fun a => 255 - a }

/-- A bus whose ISP address does not answer the construction probe. -/
def busNoIsp : BusState :=
  { busEn with ispProbe := Except.error (Err.osError 110) }

/-! ## Helper lemmas -/

theorem busWrite_halt (b : BusState) (k : Nat) :
    busWrite b ADDR.DBG [0x80, k] = b := rfl

theorem busWrite_3a (b : BusState) (l h : Nat) :
    busWrite b ADDR.DBG [0x3a, l, h] =
      { b with dbgOut := b.xdata (h * 256 + l) } := rfl

theorem busWrite_3b (b : BusState) (l h v : Nat) :
    busWrite b ADDR.DBG [0x3b, l, h, v] =
      { b with xdata := fun a => if a = h * 256 + l then v else b.xdata a } :=
  rfl

theorem debugGate_ok {b : BusState} {v : Nat}
    (h : b.dbgProbe = Except.ok v) : debugGate b = Except.ok () := by
  simp [debugGate, debug_enabled, h]

theorem debugGate_disabled {b : BusState} {e : Nat}
    (h : b.dbgProbe = Except.error (Err.osError e)) :
    debugGate b = Except.error Err.requiresDebug := by
  simp [debugGate, debug_enabled, h]

theorem addr_unsplit (a : Nat) :
    a / 256 % 256 * 256 + a % 256 = a % 65536 := by omega

theorem memSlice_congr {f g : Nat → Nat} (len : Nat) :
    ∀ addr, (∀ a, addr ≤ a → a < addr + len → f a = g a) →
      memSlice f addr len = memSlice g addr len := by
  induction len with
  | zero => intro addr _; rfl
  | succ n ih =>
    intro addr h
    simp only [memSlice]
    rw [h addr (Nat.le_refl _) (by omega), ih (addr + 1) (fun a h1 h2 => h a (by omega) (by omega))]

theorem xdataWriteLoop_dbgProbe (data : List Nat) :
    ∀ b addr halt, ((xdataWriteLoop b addr data halt).2).dbgProbe = b.dbgProbe := by
  induction data with
  | nil => intro b addr halt; rfl
  | cons v rest ih =>
    intro b addr halt
    simp only [xdataWriteLoop]
    rw [ih]
    rfl

theorem xdataWriteLoop_xdata_lo (data : List Nat) :
    ∀ b addr halt a, addr + data.length ≤ 65536 → a < addr →
      ((xdataWriteLoop b addr data halt).2).xdata a = b.xdata a := by
  induction data with
  | nil => intro b addr halt a _ _; rfl
  | cons v rest ih =>
    intro b addr halt a hbound ha
    simp only [xdataWriteLoop]
    rw [ih _ (addr + 1) halt a (by simp at hbound ⊢; omega) (by omega)]
    rw [busWrite_3b]
    have : addr / 256 % 256 * 256 + addr % 256 = addr := by
      rw [addr_unsplit]; simp at hbound; omega
    simp only [this]
    simp [Nat.ne_of_lt ha]

theorem xdataWriteLoop_slice (data : List Nat) :
    ∀ b addr halt, addr + data.length ≤ 65536 →
      memSlice ((xdataWriteLoop b addr data halt).2).xdata addr data.length
        = data := by
  induction data with
  | nil => intro b addr halt _; rfl
  | cons v rest ih =>
    intro b addr halt hbound
    simp only [List.length_cons] at hbound
    simp only [xdataWriteLoop, List.length_cons, memSlice]
    have hhead :
        ((xdataWriteLoop (busWrite b ADDR.DBG [0x3b, addr % 256, addr / 256 % 256, v])
            (addr + 1) rest halt).2).xdata addr = v := by
      rw [xdataWriteLoop_xdata_lo rest _ (addr + 1) halt addr (by omega) (by omega)]
      rw [busWrite_3b]
      have hs : addr / 256 % 256 * 256 + addr % 256 = addr := by
        rw [addr_unsplit]; omega
      simp [hs]
    rw [hhead, ih _ (addr + 1) halt (by omega)]

theorem xdataReadLoop_vals (len : Nat) :
    ∀ b addr halt, addr + len ≤ 65536 →
      (xdataReadLoop b addr len halt).1 = memSlice b.xdata addr len := by
  induction len with
  | zero => intro b addr halt _; rfl
  | succ n ih =>
    intro b addr halt hbound
    simp only [xdataReadLoop, memSlice]
    have hhead :
        busReadVal (busWrite b ADDR.DBG [0x3a, addr % 256, addr / 256 % 256])
          ADDR.DBG = b.xdata addr := by
      rw [busWrite_3a]
      simp only [busReadVal]
      have hs : addr / 256 % 256 * 256 + addr % 256 = addr := by
        rw [addr_unsplit]; omega
      simp [hs, ADDR.DBG, ADDR.ISP]
    rw [hhead, ih _ (addr + 1) halt (by omega)]
    rfl

theorem xdataReadLoop_dbgProbe (len : Nat) :
    ∀ b addr halt, ((xdataReadLoop b addr len halt).2.2).dbgProbe = b.dbgProbe := by
  induction len with
  | zero => intro b addr halt; rfl
  | succ n ih =>
    intro b addr halt
    simp only [xdataReadLoop]
    rw [ih]
    rfl

theorem limit_ok_le {mn mx addr len : Nat} {s : String}
    (h : limit_addr_check mn mx addr len s = Except.ok ()) :
    addr + len ≤ mx + 1 := by
  unfold limit_addr_check at h
  split_ifs at h with h1 h2
  omega

theorem eepromReadLoop_mod (len : Nat) :
    ∀ (b : BusState) (a1 a2 i2c : Nat) (halt : Bool),
      a1 % 65536 = a2 % 65536 →
      eepromReadLoop b a1 len i2c halt = eepromReadLoop b a2 len i2c halt := by
  induction len with
  | zero => intro b a1 a2 i2c halt _; rfl
  | succ n ih =>
    intro b a1 a2 i2c halt h
    have hl : a1 % 256 = a2 % 256 := by omega
    have hh : a1 / 256 % 256 = a2 / 256 % 256 := by omega
    simp only [eepromReadLoop, hl, hh]
    rw [ih _ (a1 + 1) (a2 + 1) i2c halt (by omega)]

theorem eepromWriteLoop_mod (data : List Nat) :
    ∀ (b : BusState) (a1 a2 i2c : Nat) (halt : Bool),
      a1 % 65536 = a2 % 65536 →
      eepromWriteLoop b a1 data i2c halt = eepromWriteLoop b a2 data i2c halt := by
  induction data with
  | nil => intro b a1 a2 i2c halt _; rfl
  | cons v rest ih =>
    intro b a1 a2 i2c halt h
    have hl : a1 % 256 = a2 % 256 := by omega
    have hh : a1 / 256 % 256 = a2 / 256 % 256 := by omega
    simp only [eepromWriteLoop, hl, hh]
    rw [ih _ (a1 + 1) (a2 + 1) i2c halt (by omega)]

theorem eepromReadLoop_dbgProbe (len : Nat) :
    ∀ (b : BusState) (addr i2c : Nat) (halt : Bool),
      ((eepromReadLoop b addr len i2c halt).2.2).dbgProbe = b.dbgProbe := by
  induction len with
  | zero => intro b addr i2c halt; rfl
  | succ n ih =>
    intro b addr i2c halt
    simp only [eepromReadLoop]
    rw [ih]
    rfl

theorem debug_write_xdata_run {b : BusState} {v : Nat} (d : Driver)
    (addr : Nat) (data : List Nat) (hp : b.dbgProbe = Except.ok v)
    (hl : limit_addr_check 0 0xffff addr data.length "DEBUG" = Except.ok ()) :
    (debug_write_xdata d b addr data true).res = Except.ok () ∧
    (debug_write_xdata d b addr data true).bus =
      (xdataWriteLoop b addr data true).2 := by
  have hg := debugGate_ok hp
  have hw : ((xdataWriteLoop b addr data true).2).dbgProbe = Except.ok v := by
    rw [xdataWriteLoop_dbgProbe]; exact hp
  have hg2 := debugGate_ok hw
  constructor <;>
    simp [debug_write_xdata, hg, hl, debug_halt_mcu, busWrite_halt, hg2]

theorem debug_iter_read_xdata_run {b : BusState} {v : Nat} (d : Driver)
    (addr len endArg : Nat) (hp : b.dbgProbe = Except.ok v)
    (hl : limit_addr_check 0 0xffff addr len "DEBUG" = Except.ok ()) :
    (debug_iter_read_xdata d b addr len endArg true).res =
      Except.ok ((xdataReadLoop b addr len true).1) := by
  have hg := debugGate_ok hp
  have hr : ((xdataReadLoop b addr len true).2.2).dbgProbe = Except.ok v := by
    rw [xdataReadLoop_dbgProbe]; exact hp
  have hg2 := debugGate_ok hr
  simp [debug_iter_read_xdata, hg, hl, debug_halt_mcu, busWrite_halt, hg2]

theorem debug_iter_read_eeprom_run {b : BusState} {v : Nat} (d : Driver)
    (addr len i2c : Nat) (hp : b.dbgProbe = Except.ok v) :
    (debug_iter_read_eeprom d b addr len i2c true).res =
      Except.ok ((eepromReadLoop b addr len i2c true).1) := by
  have hg := debugGate_ok hp
  have hr : ((eepromReadLoop b addr len i2c true).2.2).dbgProbe = Except.ok v := by
    rw [eepromReadLoop_dbgProbe]; exact hp
  have hg2 := debugGate_ok hr
  simp [debug_iter_read_eeprom, hg, debug_halt_mcu, busWrite_halt, hg2]

theorem debug_iter_read_eeprom_mod (d : Driver) (b : BusState)
    (addr len i2c : Nat) (halt : Bool) :
    debug_iter_read_eeprom d b addr len i2c halt =
      debug_iter_read_eeprom d b (addr % 65536) len i2c halt := by
  unfold debug_iter_read_eeprom
  cases hg : debugGate b with
  | error e => rfl
  | ok u =>
    dsimp only
    rw [eepromReadLoop_mod len b addr (addr % 65536) i2c false (by omega),
      eepromReadLoop_mod len (debug_halt_mcu d b true).bus addr
        (addr % 65536) i2c true (by omega)]

theorem debug_write_eeprom_mod (d : Driver) (b : BusState)
    (addr i2c : Nat) (data : List Nat) (halt : Bool) :
    debug_write_eeprom d b addr data i2c halt =
      debug_write_eeprom d b (addr % 65536) data i2c halt := by
  unfold debug_write_eeprom
  cases hg : debugGate b with
  | error e => rfl
  | ok u =>
    dsimp only
    rw [eepromWriteLoop_mod data b addr (addr % 65536) i2c false (by omega),
      eepromWriteLoop_mod data (debug_halt_mcu d b true).bus addr
        (addr % 65536) i2c true (by omega)]

/-! ## Claim theorems -/

/-- C1 (code_bug): `isp_read_xfr` materialises `self.debug_iter_read_xfr`,
a method the class does not define, so for every input it raises
`AttributeError("debug_iter_read_xfr")` before any bus transaction and
never returns the per-address bytes; the underlying per-address protocol
(`isp_iter_read_xfr`, evidently the intended delegate) does return, per
address, the byte read back after writing the target address byte to the
ISP device address (shown on a concrete register file `reg a = 255 - a`). -/
theorem isp_read_xfr_attribute_error :
    (∀ (d : Driver) (b : BusState) (addr len : Nat),
       (isp_read_xfr d b addr len).res =
           Except.error (Err.attributeError "debug_iter_read_xfr") ∧
       (isp_read_xfr d b addr len).trace = []) ∧
    (isp_iter_read_xfr drv0 busC1 0 2).res = Except.ok [255, 254] :=
  ⟨fun _ _ _ _ => ⟨rfl, rfl⟩, rfl⟩

/-- C2 (counterexample): a debug EEPROM read whose range violates the
0xffff upper bound (start 0x10000, length 1) is not rejected with a range
error — it runs to completion and issues three pure bus writes (the halt
bracket and the 0x44 command), because `debug_iter_read_eeprom` has no
`limit_addr` decorator. -/
theorem eeprom_range_unvalidated :
    (debug_iter_read_eeprom drv0 busEn 0x10000 1 0xa0 true).res =
        Except.ok [0] ∧
    writeCount (debug_iter_read_eeprom drv0 busEn 0x10000 1 0xa0 true).trace
        = 3 ∧
    ¬ (0x10000 + 1 - 1 ≤ 0xffff) :=
  ⟨rfl, rfl, by decide⟩

/-- C2 (amended): the shared validator `limit_addr` accepts a
(start, length) request with length ≥ 1 iff `min ≤ start` and
`start + length - 1 ≤ max`; it is applied to the ISP and debug-XDATA
read and write operations, which on a violating request fail with the
range error before any write transaction (only the mode-gate probe has
touched the bus) and leave the bus unchanged.  Debug EEPROM operations
perform no range validation at all (see the counterexample). -/
theorem limit_addr_validation :
    (∀ (mn mx addr len : Nat) (s : String), 1 ≤ len →
       (limit_addr_check mn mx addr len s = Except.ok () ↔
         (mn ≤ addr ∧ addr + len - 1 ≤ mx))) ∧
    (∀ (d : Driver) (b : BusState) (v addr len endArg : Nat) (er : Err),
       b.dbgProbe = Except.ok v →
       limit_addr_check 0 0xffff addr len "DEBUG" = Except.error er →
       (debug_iter_read_xdata d b addr len endArg true).res =
           Except.error er ∧
       writeCount (debug_iter_read_xdata d b addr len endArg true).trace
           = 0 ∧
       (debug_iter_read_xdata d b addr len endArg true).bus = b) := by
  constructor
  · intro mn mx addr len s hlen
    constructor
    · intro h
      have hle := limit_ok_le h
      unfold limit_addr_check at h
      split_ifs at h with h1 h2
      omega
    · intro hok
      unfold limit_addr_check
      have hA : ¬¬(mn ≤ addr ∧ addr ≤ mx) := by omega
      have hB : ¬¬((mn : Int) ≤ (addr : Int) + (len : Int) - 1 ∧
          (addr : Int) + (len : Int) - 1 ≤ (mx : Int)) := by omega
      rw [if_neg hA, if_neg hB]
  · intro d b v addr len endArg er hp hl
    have hg := debugGate_ok hp
    refine ⟨?_, ?_, ?_⟩ <;>
      simp [debug_iter_read_xdata, hg, hl, writeCount, isBusWrite]

/-- Witness for C2: the ISP space accepts (0xff, 1) per the proved iff,
and an out-of-range debug XDATA read (start 0x10000) fails with the
start-address range error. -/
theorem limit_addr_validation_witness :
    (limit_addr_check 0 0xff 0xff 1 "ISP" = Except.ok () ↔
      (0 ≤ 0xff ∧ 0xff + 1 - 1 ≤ 0xff)) ∧
    (debug_iter_read_xdata drv0 busEn 0x10000 1 0 true).res =
      Except.error (Err.rangeError "DEBUG" false) :=
  ⟨limit_addr_validation.1 0 0xff 0xff 1 "ISP" (by decide),
   (limit_addr_validation.2 drv0 busEn 0 0x10000 1 0
      (Err.rangeError "DEBUG" false) rfl rfl).1⟩

/-- C3 (code_bug): `debug_read_xdata(0, 1, halt=False)` on an enabled bus
still issues the halt command `[0x80, 1]` and inserts no 10 ms settle
sleep — the third positional argument lands in the iterator's unused
`end` parameter, so the halt bracket runs anyway — whereas calling the
iterator itself with `halt=False` takes the settle-delay path (one 10 ms
sleep per address, no halt command). -/
theorem debug_read_xdata_halt_false_still_halts :
    (debug_read_xdata drv0 busEn 0 1 false).res = Except.ok [0] ∧
    BusOp.write ADDR.DBG [0x80, 1] ∈
        (debug_read_xdata drv0 busEn 0 1 false).trace ∧
    BusOp.sleep 10 ∉ (debug_read_xdata drv0 busEn 0 1 false).trace ∧
    (debug_iter_read_xdata drv0 busEn 0 1 0 false).trace =
      [BusOp.readByte ADDR.DBG, BusOp.write ADDR.DBG [0x3a, 0, 0],
       BusOp.sleep 10, BusOp.read ADDR.DBG 1] := by
  refine ⟨rfl, ?_, ?_, rfl⟩ <;> decide

/-- C4 (counterexample): a debug-protected operation invoked while debug
mode is disabled does not transparently enable debug mode under any
setting — the driver state carries no auto-enable policy flag — it raises
the gate error after the lone probe read, with no enable write and no
access. -/
theorem debug_gate_no_auto_enable :
    (debug_iter_read_xdata drv0 busDis 0 1 0 true).res =
        Except.error Err.requiresDebug ∧
    (debug_iter_read_xdata drv0 busDis 0 1 0 true).trace =
        [BusOp.readByte ADDR.DBG] :=
  ⟨rfl, rfl⟩

/-- C4 (amended): every debug-protected operation (halt control, XDATA
read/write, EEPROM read/write) invoked while debug mode is disabled (the
probe raises an `OSError`) raises the `requiresDebug` error; the trace is
the probe read only (no enable sequence, no access) and driver and bus
state are unchanged. -/
theorem debug_gate_raises_without_access (d : Driver) (b : BusState)
    (e : Nat) (h : b.dbgProbe = Except.error (Err.osError e))
    (addr len endArg i2c : Nat) (data : List Nat) (halt : Bool) :
    debug_halt_mcu d b halt =
      ⟨Except.error Err.requiresDebug, [BusOp.readByte ADDR.DBG], d, b⟩ ∧
    debug_iter_read_xdata d b addr len endArg halt =
      ⟨Except.error Err.requiresDebug, [BusOp.readByte ADDR.DBG], d, b⟩ ∧
    debug_write_xdata d b addr data halt =
      ⟨Except.error Err.requiresDebug, [BusOp.readByte ADDR.DBG], d, b⟩ ∧
    debug_iter_read_eeprom d b addr len i2c halt =
      ⟨Except.error Err.requiresDebug, [BusOp.readByte ADDR.DBG], d, b⟩ ∧
    debug_write_eeprom d b addr data i2c halt =
      ⟨Except.error Err.requiresDebug, [BusOp.readByte ADDR.DBG], d, b⟩ := by
  have hg := debugGate_disabled h
  refine ⟨?_, ?_, ?_, ?_, ?_⟩ <;>
    simp [debug_halt_mcu, debug_iter_read_xdata, debug_write_xdata,
      debug_iter_read_eeprom, debug_write_eeprom, hg]

/-- Witness for C4 at the concrete disabled bus `busDis`. -/
theorem debug_gate_raises_without_access_witness :
    busDis.dbgProbe = Except.error (Err.osError ENXIO) ∧
    (debug_write_xdata drv0 busDis 3 [1, 2] true).res =
      Except.error Err.requiresDebug :=
  ⟨rfl, by
    rw [(debug_gate_raises_without_access drv0 busDis ENXIO rfl
        3 0 0 0 [1, 2] true).2.2.1]⟩

/-- C5 (counterexample): a probe failure with `OSError` errno 110
(`ETIMEDOUT`), which is not the device-not-present class (`ENXIO`, 6), is
nevertheless reported as "debug disabled" (`ok false`) instead of
propagating. -/
theorem debug_enabled_swallows_timeout :
    debug_enabled busTimeout = Except.ok false ∧
    busTimeout.dbgProbe = Except.error (Err.osError 110) ∧
    (110 : Nat) ≠ ENXIO :=
  ⟨rfl, rfl, by decide⟩

/-- C5 (amended): the `debug_enabled` probe returns false exactly when the
probe read raises an `OSError` of any errno (not only the
device-not-present class); a successful probe yields true, and only
non-`OSError` exceptions propagate to the caller. -/
theorem debug_enabled_oserror_policy (b : BusState) :
    (∀ e, b.dbgProbe = Except.error (Err.osError e) →
       debug_enabled b = Except.ok false) ∧
    (∀ v, b.dbgProbe = Except.ok v → debug_enabled b = Except.ok true) ∧
    (∀ m, b.dbgProbe = Except.error (Err.exc m) →
       debug_enabled b = Except.error (Err.exc m)) := by
  refine ⟨fun e h => ?_, fun v h => ?_, fun m h => ?_⟩ <;>
    simp [debug_enabled, h]

/-- Witness for C5 at the concrete timed-out bus `busTimeout`. -/
theorem debug_enabled_oserror_policy_witness :
    busTimeout.dbgProbe = Except.error (Err.osError 110) ∧
    debug_enabled busTimeout = Except.ok false :=
  ⟨rfl, (debug_enabled_oserror_policy busTimeout).1 110 rfl⟩

/-- C6: `debug_enable(False, force)` while the cached halted flag is true
and debug mode is currently enabled (or `force` is set) raises the
`invalidState` error and issues zero pure bus writes; the driver state and
the bus are unchanged (only the gate's probe read occurred). -/
theorem debug_disable_while_halted_invalid_state (d : Driver)
    (b : BusState) (force : Bool) (v e : Nat) (hh : d.halted = true)
    (hp : b.dbgProbe = Except.ok v ∨
          (b.dbgProbe = Except.error (Err.osError e) ∧ force = true)) :
    (debug_enable d b false force).res = Except.error Err.invalidState ∧
    writeCount (debug_enable d b false force).trace = 0 ∧
    (debug_enable d b false force).drv = d ∧
    (debug_enable d b false force).bus = b := by
  rcases hp with hp | ⟨hp, hf⟩
  · refine ⟨?_, ?_, ?_, ?_⟩ <;>
      simp [debug_enable, debug_enabled, hp, hh, writeCount, isBusWrite]
  · subst hf
    refine ⟨?_, ?_, ?_, ?_⟩ <;>
      simp [debug_enable, debug_enabled, hp, hh, writeCount, isBusWrite]

/-- Witness for C6: halted driver, debug enabled, `force=false`. -/
theorem debug_disable_while_halted_invalid_state_witness :
    ({ halted := true } : Driver).halted = true ∧
    busEn.dbgProbe = Except.ok 0 ∧
    (debug_enable { halted := true } busEn false false).res =
      Except.error Err.invalidState :=
  ⟨rfl, rfl,
   (debug_disable_while_halted_invalid_state { halted := true } busEn
      false 0 0 rfl (Or.inl rfl)).1⟩

/-- C7: for every XDATA range accepted by the validator and every payload
of that length, a halted debug XDATA write followed by a halted debug
XDATA read of the same range over the byte-storing bus model returns
exactly the written values in ascending-address order. -/
theorem xdata_write_read_roundtrip (d : Driver) (b : BusState)
    (addr : Nat) (data : List Nat) (v : Nat)
    (hdbg : b.dbgProbe = Except.ok v)
    (hlim : limit_addr_check 0 0xffff addr data.length "DEBUG" =
      Except.ok ()) :
    (debug_write_xdata d b addr data true).res = Except.ok () ∧
    (debug_iter_read_xdata (debug_write_xdata d b addr data true).drv
        (debug_write_xdata d b addr data true).bus addr data.length 0
        true).res = Except.ok data := by
  obtain ⟨hres, hbus⟩ := debug_write_xdata_run d addr data hdbg hlim
  refine ⟨hres, ?_⟩
  rw [hbus]
  have hw : ((xdataWriteLoop b addr data true).2).dbgProbe =
      Except.ok v := by
    rw [xdataWriteLoop_dbgProbe]; exact hdbg
  rw [debug_iter_read_xdata_run _ addr data.length 0 hw hlim]
  have hbound : addr + data.length ≤ 65536 := limit_ok_le hlim
  rw [xdataReadLoop_vals data.length _ addr true hbound]
  rw [xdataWriteLoop_slice data b addr true hbound]

/-- Witness for C7: write [7, 9] at 0xfffe, read it back. -/
theorem xdata_write_read_roundtrip_witness :
    busEn.dbgProbe = Except.ok 0 ∧
    limit_addr_check 0 0xffff 0xfffe 2 "DEBUG" = Except.ok () ∧
    (debug_iter_read_xdata
        (debug_write_xdata drv0 busEn 0xfffe [7, 9] true).drv
        (debug_write_xdata drv0 busEn 0xfffe [7, 9] true).bus
        0xfffe 2 0 true).res = Except.ok [7, 9] :=
  ⟨rfl, rfl,
   (xdata_write_read_roundtrip drv0 busEn 0xfffe [7, 9] 0 rfl rfl).2⟩

/-- C8: calling `isp_enable` with the already-current enabled state and
`force=false` issues zero pure bus writes (the only transaction is the
`isp_enabled` query, a write-then-read) and leaves the ISP register file
unchanged. -/
theorem isp_enable_matching_state_no_writes (b : BusState) (onoff : Bool)
    (h : (isp_enabled b).1 = onoff) :
    writeCount (isp_enable b onoff false).1 = 0 ∧
    ((isp_enable b onoff false).2).ispMem = b.ispMem := by
  simp only [isp_enable, h, beq_self_eq_true, Bool.not_false,
    Bool.and_true, if_true]
  exact ⟨rfl, rfl⟩

/-- Witness for C8: `busC1` reads as ISP-enabled, and enabling again with
`force=false` issues zero writes. -/
theorem isp_enable_matching_state_no_writes_witness :
    (isp_enabled busC1).1 = true ∧
    writeCount (isp_enable busC1 true false).1 = 0 :=
  ⟨rfl, (isp_enable_matching_state_no_writes busC1 true rfl).1⟩

/-- C9: construction probes the ISP address with one `read_byte`; a probe
`OSError` fails construction with the device-unreachable error after that
single bus access, and a successful probe constructs the driver with the
halted flag false (same single access). -/
theorem init_probe_behavior (b : BusState) :
    (∀ e, b.ispProbe = Except.error (Err.osError e) →
       init b = (Except.error Err.deviceUnreachable,
         [BusOp.readByte ADDR.ISP])) ∧
    (∀ v, b.ispProbe = Except.ok v →
       init b = (Except.ok { halted := false },
         [BusOp.readByte ADDR.ISP])) := by
  refine ⟨fun e h => ?_, fun v h => ?_⟩ <;> simp [init, h]

/-- Witness for C9 at an unreachable and a reachable bus. -/
theorem init_probe_behavior_witness :
    busNoIsp.ispProbe = Except.error (Err.osError 110) ∧
    init busNoIsp = (Except.error Err.deviceUnreachable,
      [BusOp.readByte ADDR.ISP]) ∧
    init busEn = (Except.ok { halted := false },
      [BusOp.readByte ADDR.ISP]) :=
  ⟨rfl, (init_probe_behavior busNoIsp).1 110 rfl,
   (init_probe_behavior busEn).2 0 rfl⟩

/-- C10: for every debug EEPROM read or write, the command's address bytes
are `addr & 0xff` and `(addr >> 8) & 0xff`, so the whole operation —
result, trace and final state — at start address `addr` coincides with the
operation at `addr % 0x10000` (silent aliasing); and with debug mode
enabled no range check rejects any start address: the read always
succeeds. -/
theorem eeprom_addr_aliasing :
    (∀ (d : Driver) (b : BusState) (addr len i2c : Nat) (halt : Bool),
       debug_iter_read_eeprom d b addr len i2c halt =
         debug_iter_read_eeprom d b (addr % 0x10000) len i2c halt) ∧
    (∀ (d : Driver) (b : BusState) (addr i2c : Nat) (data : List Nat)
       (halt : Bool),
       debug_write_eeprom d b addr data i2c halt =
         debug_write_eeprom d b (addr % 0x10000) data i2c halt) ∧
    (∀ (d : Driver) (b : BusState) (v addr len i2c : Nat),
       b.dbgProbe = Except.ok v →
       (debug_iter_read_eeprom d b addr len i2c true).res =
         Except.ok ((eepromReadLoop b addr len i2c true).1)) := by
  refine ⟨fun d b addr len i2c halt => ?_,
          fun d b addr i2c data halt => ?_,
          fun d b v addr len i2c hp => ?_⟩
  · exact debug_iter_read_eeprom_mod d b addr len i2c halt
  · exact debug_write_eeprom_mod d b addr i2c data halt
  · exact debug_iter_read_eeprom_run d addr len i2c hp

/-- Witness for C10: reading 2 bytes at 0x12345 succeeds (no range
rejection) with debug enabled. -/
theorem eeprom_addr_aliasing_witness :
    busEn.dbgProbe = Except.ok 0 ∧
    (debug_iter_read_eeprom drv0 busEn 0x12345 2 0xa0 true).res =
      Except.ok [0, 0] :=
  ⟨rfl, by
    rw [eeprom_addr_aliasing.2.2 drv0 busEn 0 0x12345 2 0xa0 rfl]
    rfl⟩

end I2rtd
